import Mathlib

/-!
Verification of the routing/classification core of the SupervisorPlusAgents
repository: the keyword-priority classifier (`decide_tool` in
`supervisor/router.py`), the ambiguity detector and LLM-based secondary
classifier (`supervisor/llm_router.py`), and the tool-enablement view of
the configuration (`supervisor/config.py`).

Strings are embedded as Lean `String`; Python string primitives used by the
router (`str.lower`, `str.strip`, `str.split`, substring containment via
`in`) are defined below on the underlying character lists. The optional
Anthropic collaborator and its environment (SDK availability, API key,
API response or failure) are modelled by an explicit `LLMEnv` value, so
theorems quantifying over `LLMEnv` cover every possible collaborator
behaviour. Python exceptions raised by `decide_tool` / `llm_route_query`
are modelled with `Except RouterErr`.
-/

namespace Supervisor

/-- Python whitespace characters recognised by `str.strip()` / `str.split()`
(ASCII subset: space, tab, newline, carriage return, vertical tab, form feed). -/
def pyIsSpace (c : Char) : Bool :=
  c == ' ' || c == '\t' || c == '\n' || c == '\r' || c == '\x0b' || c == '\x0c'

/-- Python `str.lower()` (character-wise lowering). -/
def pyLower (s : String) : String :=
  String.mk (s.data.map Char.toLower)

/-- Python `str.strip()`: remove leading and trailing whitespace. -/
def pyStrip (s : String) : String :=
  String.mk (((s.data.dropWhile pyIsSpace).reverse.dropWhile pyIsSpace).reverse)

/-- Does `haystack` start with `needle`? (auxiliary for substring containment). -/
def startsWithList : List Char → List Char → Bool
  | _, [] => true
  | [], _ :: _ => false
  | a :: as, b :: bs => a == b && startsWithList as bs

/-- Python `needle in haystack` on strings: contiguous-substring containment. -/
def containsSubList (haystack needle : List Char) : Bool :=
  match haystack with
  | [] => startsWithList [] needle
  | c :: t => startsWithList (c :: t) needle || containsSubList t needle

/-- Python `needle in haystack` lifted to `String`. -/
def strContainsSub (haystack needle : String) : Bool :=
  containsSubList haystack.data needle.data

/-- Python `str.split()` with no arguments: split on runs of whitespace,
dropping empty pieces.  `cur` is the (reversed) word being accumulated. -/
def splitWordsAux : List Char → List Char → List (List Char)
  | cur, [] => if cur == [] then [] else [cur.reverse]
  | cur, c :: rest =>
    if pyIsSpace c then
      if cur == [] then splitWordsAux [] rest
      else cur.reverse :: splitWordsAux [] rest
    else splitWordsAux (c :: cur) rest

/-- Python `s.split()` (no separator argument). -/
def pySplit (s : String) : List String :=
  (splitWordsAux [] s.data).map fun w => String.mk w

/-- Model of `len(query.split())` — the word count used by the ambiguity detector. -/
def wordCount (s : String) : Nat :=
  (pySplit s).length

/-! ## Configuration (`supervisor/config.py`) -/

/-- One entry of the `tools` mapping; `enabled` models
`tool_config.get('enabled', False)`. -/
structure ToolEntry where
  enabled : Bool
deriving DecidableEq

/-- The `routing_rules` dictionary as read by the router.  Each list field
models `config.routing_rules.get(key, [])`: an absent key is the same as an
empty list, and `enable_llm_fallback` models
`routing_rules.get('enable_llm_fallback', False)`. -/
structure RoutingRules where
  harmful_patterns : List String
  document_keywords : List String
  database_keywords : List String
  web_keywords : List String
  enable_llm_fallback : Bool
deriving DecidableEq

/-- The `Config` object: a named-tool registry plus routing rules.
`tools` is an association list modelling the `tools` dictionary. -/
structure Config where
  tools : List (String × ToolEntry)
  routing_rules : RoutingRules
deriving DecidableEq

/-- Model of `Config.is_tool_enabled`: a tool absent from the mapping is disabled;
otherwise its `enabled` flag (defaulting to false) decides. -/
def Config.is_tool_enabled (c : Config) (tool_name : String) : Bool :=
  match c.tools.lookup tool_name with
  | none => false
  | some t => t.enabled

/-! ## Environment of the secondary classifier (`supervisor/llm_router.py`) -/

/-- Outcome of the `client.messages.create(...)` call: either a response
whose `content` blocks carry the listed texts, or any raised exception
(timeout, connection error, API error, or anything else). -/
inductive APIOutcome where
  | success (contentTexts : List String)
  | failure
deriving DecidableEq

/-- Ambient environment of the LLM routing fallback: whether the Anthropic
SDK imported, the `ANTHROPIC_API_KEY` environment variable, and the
behaviour of the API call itself. -/
structure LLMEnv where
  anthropicAvailable : Bool
  apiKey : Option String
  apiOutcome : APIOutcome
deriving DecidableEq

/-- Exceptions surfaced by the routing core. -/
inductive RouterErr where
  | typeError
  | valueError
deriving DecidableEq

/-- Model of `_call_llm_for_routing`: returns `none` when the SDK is unavailable, the
API key is unset, the call raises (all exceptions are caught), or the
response has no content blocks; otherwise the first block's text,
stripped then lowered. -/
def callLlmForRouting (env : LLMEnv) : Option String :=
  if !env.anthropicAvailable then none
  else
    match env.apiKey with
    | none => none
    | some _ =>
      match env.apiOutcome with
      | .failure => none
      | .success contentTexts =>
        match contentTexts with
        | [] => none
        | first :: _ => some (pyLower (pyStrip first))

/-- The `available_tools` list built by `llm_route_query` for the prompt:
the categories whose backing tool is enabled, plus `direct` (always). -/
def available_tools (config : Config) : List String :=
  (if config.is_tool_enabled "document_retriever" then ["doc"] else []) ++
  (if config.is_tool_enabled "database_query" then ["db"] else []) ++
  (if config.is_tool_enabled "web_search" then ["web"] else []) ++
  ["direct"]

/-- The body of `llm_route_query` after input validation: the fallback
toggle and SDK check, the API call, and the validation of the suggestion
against the fixed list `['direct', 'doc', 'db', 'web']`. -/
def llmSuggest (env : LLMEnv) (config : Config) : Option String :=
  if !config.routing_rules.enable_llm_fallback then none
  else if !env.anthropicAvailable then none
  else
    match callLlmForRouting env with
    | some suggestion =>
      if suggestion != "" &&
          (suggestion == "direct" || suggestion == "doc" ||
           suggestion == "db" || suggestion == "web") then
        some suggestion
      else none
    | none => none

/-- Model of `llm_route_query(query, config)`: raises `ValueError` on an empty or
all-whitespace query, otherwise returns the validated suggestion (or
`None`).  All collaborator failures are absorbed inside `llmSuggest`. -/
def llm_route_query (env : LLMEnv) (query : String) (config : Config) :
    Except RouterErr (Option String) :=
  if query == "" then .error .valueError
  else if pyStrip query == "" then .error .valueError
  else .ok (llmSuggest env config)

/-! ## Keyword classifier and decision engine (`supervisor/router.py`) -/

/-- Model of `_matches_keywords(query_lower, keywords)`: plain substring containment
of any (lowered) keyword in the lowered query. -/
def matchesKeywords (query_lower : String) (keywords : List String) : Bool :=
  keywords.any fun keyword => strContainsSub query_lower (pyLower keyword)

/-- Model of `_contains_harmful_pattern(query_lower, harmful_patterns)`: pad both the
query and the (lowered) pattern with one leading and one trailing space and
test substring containment. -/
def containsHarmfulPattern (query_lower : String) (harmful_patterns : List String) : Bool :=
  harmful_patterns.any fun pattern =>
    strContainsSub (" " ++ query_lower ++ " ") (" " ++ pyLower pattern ++ " ")

/-- Model of `is_ambiguous_query(query, keyword_matches)` from `supervisor/llm_router.py`. -/
def is_ambiguous_query (query : String) (keyword_matches : List String) : Bool :=
  if keyword_matches.length > 1 then true
  else
    let word_count := wordCount query
    if word_count < 3 && keyword_matches.isEmpty then true
    else if keyword_matches.length == 1 then false
    else if word_count < 5 && keyword_matches.isEmpty then true
    else false

/-- The `tool_enabled_map` lookup (with default `False`) applied to a
validated LLM suggestion inside `decide_tool`. -/
def toolEnabledFor (config : Config) (s : String) : Bool :=
  if s == "doc" then config.is_tool_enabled "document_retriever"
  else if s == "db" then config.is_tool_enabled "database_query"
  else if s == "web" then config.is_tool_enabled "web_search"
  else if s == "direct" then true
  else false

/-- The argument actually passed for `query`: a string, or any non-string
value (which `decide_tool` rejects with `TypeError`). -/
inductive PyInput where
  | str (s : String)
  | notStr
deriving DecidableEq

/-- Model of `decide_tool(query, config)`: input validation, harmful-pattern check,
priority-ordered keyword checks with tool-enablement gating, then the
ambiguity-driven LLM fallback, defaulting to `'direct'`.  An exception
raised by `llm_route_query` would propagate (`.error e` branch); the
theorems below show this is unreachable for validated input. -/
def decide_tool (env : LLMEnv) (query : PyInput) (config : Config) :
    Except RouterErr String :=
  match query with
  | .notStr => .error .typeError
  | .str q =>
    if q == "" || pyStrip q == "" then .error .valueError
    else
      let query_lower := pyLower q
      if containsHarmfulPattern query_lower config.routing_rules.harmful_patterns then
        .ok "fallback"
      else
        let doc_match := matchesKeywords query_lower config.routing_rules.document_keywords
        if doc_match && config.is_tool_enabled "document_retriever" then .ok "doc"
        else
          let db_match := matchesKeywords query_lower config.routing_rules.database_keywords
          if db_match && config.is_tool_enabled "database_query" then .ok "db"
          else
            let web_match := matchesKeywords query_lower config.routing_rules.web_keywords
            if web_match && config.is_tool_enabled "web_search" then .ok "web"
            else
              let keyword_matches :=
                (if doc_match then ["doc"] else []) ++
                (if db_match then ["db"] else []) ++
                (if web_match then ["web"] else [])
              if is_ambiguous_query q keyword_matches || keyword_matches.isEmpty then
                match llm_route_query env q config with
                | .error e => .error e
                | .ok (some s) =>
                  if (s == "direct" || s == "doc" || s == "db" || s == "web") &&
                      toolEnabledFor config s then .ok s
                  else .ok "direct"
                | .ok none => .ok "direct"
              else .ok "direct"

/-! ## Helper lemmas: stage-by-stage behaviour of `decide_tool` -/

/-- The `keyword_matches` list accumulated by `decide_tool` when no keyword
check returned early. -/
def keywordMatchList (q : String) (config : Config) : List String :=
  (if matchesKeywords (pyLower q) config.routing_rules.document_keywords then ["doc"] else []) ++
  (if matchesKeywords (pyLower q) config.routing_rules.database_keywords then ["db"] else []) ++
  (if matchesKeywords (pyLower q) config.routing_rules.web_keywords then ["web"] else [])

/-- The tail of `decide_tool` (lines 99-116 of `router.py`): the ambiguity
check, the LLM fallback and its validation, and the `'direct'` default. -/
def llmStage (env : LLMEnv) (q : String) (config : Config)
    (keyword_matches : List String) : String :=
  if is_ambiguous_query q keyword_matches || keyword_matches.isEmpty then
    match llmSuggest env config with
    | some s =>
      if (s == "direct" || s == "doc" || s == "db" || s == "web") &&
          toolEnabledFor config s then s
      else "direct"
    | none => "direct"
  else "direct"

/-! ## Spec-side definitions (for refinement comparisons) and concrete instances -/

/-- Stated from the spec's five ordered ambiguity rules (section 4.2), for
comparison with the implementation's `is_ambiguous_query`:
1. more than one match: ambiguous; 2. no match and fewer than 3 words:
ambiguous; 3. exactly one match: not ambiguous; 4. no match and fewer than
5 words: ambiguous; 5. otherwise not ambiguous. -/
def spec_is_ambiguous (query : String) (ms : List String) : Bool :=
  if ms.length > 1 then true
  else if ms.isEmpty && wordCount query < 3 then true
  else if ms.length == 1 then false
  else if ms.isEmpty && wordCount query < 5 then true
  else false

/-- Stated from claim C2's words: the pattern occurs in the case-folded query
as a separate token, bounded by whitespace or string start/end. -/
def specTokenBounded (query_lower pat : String) : Prop :=
  ∃ pre post : List Char,
    query_lower.data = pre ++ pat.data ++ post ∧
    (pre = [] ∨ ∃ c, pre.getLast? = some c ∧ pyIsSpace c = true) ∧
    (post = [] ∨ ∃ c, post.head? = some c ∧ pyIsSpace c = true)

/-- The routing rules of the spec's concrete scenarios (section 8), with the
LLM fallback off. -/
def rulesStd : RoutingRules :=
  { harmful_patterns := ["delete", "drop"]
    document_keywords := ["document", "plan"]
    database_keywords := ["account", "sales"]
    web_keywords := ["news", "latest"]
    enable_llm_fallback := false }

/-- All three tools enabled. -/
def cfgAll : Config :=
  { tools := [("document_retriever", ⟨true⟩), ("database_query", ⟨true⟩),
              ("web_search", ⟨true⟩)]
    routing_rules := rulesStd }

/-- Configuration with `document_retriever` disabled, the other tools enabled. -/
def cfgDocOff : Config :=
  { tools := [("document_retriever", ⟨false⟩), ("database_query", ⟨true⟩),
              ("web_search", ⟨true⟩)]
    routing_rules := rulesStd }

/-- All three tools disabled, LLM fallback on. -/
def cfgNoTools : Config :=
  { tools := [("document_retriever", ⟨false⟩), ("database_query", ⟨false⟩),
              ("web_search", ⟨false⟩)]
    routing_rules := { rulesStd with enable_llm_fallback := true } }

/-- A configuration whose document keyword list contains the empty string. -/
def cfgEmptyKw : Config :=
  { tools := [("document_retriever", ⟨true⟩)]
    routing_rules :=
      { harmful_patterns := []
        document_keywords := [""]
        database_keywords := []
        web_keywords := []
        enable_llm_fallback := false } }

/-- Environment with no Anthropic SDK installed. -/
def envNone : LLMEnv :=
  { anthropicAvailable := false, apiKey := none, apiOutcome := .failure }

/-- Environment where the collaborator call raises. -/
def envFail : LLMEnv :=
  { anthropicAvailable := true, apiKey := some "key", apiOutcome := .failure }

/-- Environment where the collaborator answers with the single text `doc`. -/
def envDoc : LLMEnv :=
  { anthropicAvailable := true, apiKey := some "key", apiOutcome := .success ["doc"] }

/-! ## Stage lemmas for the decision engine -/

theorem llm_route_query_valid (env : LLMEnv) (q : String) (config : Config)
    (h1 : q ≠ "") (h2 : pyStrip q ≠ "") :
    llm_route_query env q config = .ok (llmSuggest env config) := by
  simp [llm_route_query, h1, h2]

theorem decide_tool_harmful (env : LLMEnv) (q : String) (config : Config)
    (h1 : q ≠ "") (h2 : pyStrip q ≠ "")
    (hh : containsHarmfulPattern (pyLower q) config.routing_rules.harmful_patterns = true) :
    decide_tool env (.str q) config = .ok "fallback" := by
  have hv : (q == "" || pyStrip q == "") = false := by simp [h1, h2]
  simp [decide_tool, hv, hh]

theorem decide_tool_doc (env : LLMEnv) (q : String) (config : Config)
    (h1 : q ≠ "") (h2 : pyStrip q ≠ "")
    (hh : containsHarmfulPattern (pyLower q) config.routing_rules.harmful_patterns = false)
    (hd : matchesKeywords (pyLower q) config.routing_rules.document_keywords = true)
    (he : config.is_tool_enabled "document_retriever" = true) :
    decide_tool env (.str q) config = .ok "doc" := by
  have hv : (q == "" || pyStrip q == "") = false := by simp [h1, h2]
  simp [decide_tool, hv, hh, hd, he]

theorem decide_tool_db (env : LLMEnv) (q : String) (config : Config)
    (h1 : q ≠ "") (h2 : pyStrip q ≠ "")
    (hh : containsHarmfulPattern (pyLower q) config.routing_rules.harmful_patterns = false)
    (hdoc : (matchesKeywords (pyLower q) config.routing_rules.document_keywords &&
      config.is_tool_enabled "document_retriever") = false)
    (hd : matchesKeywords (pyLower q) config.routing_rules.database_keywords = true)
    (he : config.is_tool_enabled "database_query" = true) :
    decide_tool env (.str q) config = .ok "db" := by
  have hv : (q == "" || pyStrip q == "") = false := by simp [h1, h2]
  simp [decide_tool, hv, hh, hdoc, hd, he]

theorem decide_tool_web (env : LLMEnv) (q : String) (config : Config)
    (h1 : q ≠ "") (h2 : pyStrip q ≠ "")
    (hh : containsHarmfulPattern (pyLower q) config.routing_rules.harmful_patterns = false)
    (hdoc : (matchesKeywords (pyLower q) config.routing_rules.document_keywords &&
      config.is_tool_enabled "document_retriever") = false)
    (hdb : (matchesKeywords (pyLower q) config.routing_rules.database_keywords &&
      config.is_tool_enabled "database_query") = false)
    (hw : matchesKeywords (pyLower q) config.routing_rules.web_keywords = true)
    (he : config.is_tool_enabled "web_search" = true) :
    decide_tool env (.str q) config = .ok "web" := by
  have hv : (q == "" || pyStrip q == "") = false := by simp [h1, h2]
  simp [decide_tool, hv, hh, hdoc, hdb, hw, he]

theorem decide_tool_llm_stage (env : LLMEnv) (q : String) (config : Config)
    (h1 : q ≠ "") (h2 : pyStrip q ≠ "")
    (hh : containsHarmfulPattern (pyLower q) config.routing_rules.harmful_patterns = false)
    (hdoc : (matchesKeywords (pyLower q) config.routing_rules.document_keywords &&
      config.is_tool_enabled "document_retriever") = false)
    (hdb : (matchesKeywords (pyLower q) config.routing_rules.database_keywords &&
      config.is_tool_enabled "database_query") = false)
    (hweb : (matchesKeywords (pyLower q) config.routing_rules.web_keywords &&
      config.is_tool_enabled "web_search") = false) :
    decide_tool env (.str q) config =
      .ok (llmStage env q config (keywordMatchList q config)) := by
  have hv : (q == "" || pyStrip q == "") = false := by simp [h1, h2]
  have hl := llm_route_query_valid env q config h1 h2
  cases hs : llmSuggest env config with
  | none =>
    rw [hs] at hl
    simp only [decide_tool, llmStage, keywordMatchList, hv, hh, hdoc, hdb, hweb, hs, hl,
      Bool.false_eq_true, if_false]
    repeat' (first | rfl | split)
  | some s =>
    rw [hs] at hl
    simp only [decide_tool, llmStage, keywordMatchList, hv, hh, hdoc, hdb, hweb, hs, hl,
      Bool.false_eq_true, if_false]
    repeat' (first | rfl | split)

/-- Possible results of the LLM-fallback stage: `'direct'`, or a category
whose backing tool is enabled. -/
theorem llmStage_cases (env : LLMEnv) (q : String) (config : Config) (kw : List String) :
    llmStage env q config kw = "direct" ∨
    (llmStage env q config kw = "doc" ∧ config.is_tool_enabled "document_retriever" = true) ∨
    (llmStage env q config kw = "db" ∧ config.is_tool_enabled "database_query" = true) ∨
    (llmStage env q config kw = "web" ∧ config.is_tool_enabled "web_search" = true) := by
  unfold llmStage
  split
  · cases hs : llmSuggest env config with
    | none => exact Or.inl rfl
    | some s =>
      split
      · next s2 hg =>
        injection hg with hg
        subst hg
        split
        · next hgd =>
          simp only [Bool.and_eq_true, Bool.or_eq_true, beq_iff_eq] at hgd
          obtain ⟨hfour, hen⟩ := hgd
          rcases hfour with ((h | h) | h) | h <;> subst h <;> simp_all [toolEnabledFor]
        · exact Or.inl rfl
      · next hg => exact Option.noConfusion hg
  · exact Or.inl rfl

/-- On validated input `decide_tool` always succeeds and yields one of the
five category strings. -/
theorem decide_tool_total (env : LLMEnv) (q : String) (config : Config)
    (h1 : q ≠ "") (h2 : pyStrip q ≠ "") :
    ∃ r, decide_tool env (.str q) config = .ok r ∧
      (r = "direct" ∨ r = "doc" ∨ r = "db" ∨ r = "web" ∨ r = "fallback") := by
  by_cases hh : containsHarmfulPattern (pyLower q) config.routing_rules.harmful_patterns = true
  · exact ⟨"fallback", decide_tool_harmful env q config h1 h2 hh, by simp⟩
  · have hh' : containsHarmfulPattern (pyLower q) config.routing_rules.harmful_patterns = false := by
      simpa using hh
    by_cases hd : (matchesKeywords (pyLower q) config.routing_rules.document_keywords &&
        config.is_tool_enabled "document_retriever") = true
    · obtain ⟨hd1, hd2⟩ := Bool.and_eq_true_iff.mp hd
      exact ⟨"doc", decide_tool_doc env q config h1 h2 hh' hd1 hd2, by simp⟩
    · have hd' : (matchesKeywords (pyLower q) config.routing_rules.document_keywords &&
          config.is_tool_enabled "document_retriever") = false := by simpa using hd
      by_cases hb : (matchesKeywords (pyLower q) config.routing_rules.database_keywords &&
          config.is_tool_enabled "database_query") = true
      · obtain ⟨hb1, hb2⟩ := Bool.and_eq_true_iff.mp hb
        exact ⟨"db", decide_tool_db env q config h1 h2 hh' hd' hb1 hb2, by simp⟩
      · have hb' : (matchesKeywords (pyLower q) config.routing_rules.database_keywords &&
            config.is_tool_enabled "database_query") = false := by simpa using hb
        by_cases hw : (matchesKeywords (pyLower q) config.routing_rules.web_keywords &&
            config.is_tool_enabled "web_search") = true
        · obtain ⟨hw1, hw2⟩ := Bool.and_eq_true_iff.mp hw
          exact ⟨"web", decide_tool_web env q config h1 h2 hh' hd' hb' hw1 hw2, by simp⟩
        · have hw' : (matchesKeywords (pyLower q) config.routing_rules.web_keywords &&
              config.is_tool_enabled "web_search") = false := by simpa using hw
          have hstage := decide_tool_llm_stage env q config h1 h2 hh' hd' hb' hw'
          rcases llmStage_cases env q config (keywordMatchList q config) with
            h | ⟨h, _⟩ | ⟨h, _⟩ | ⟨h, _⟩ <;>
            exact ⟨_, by rw [hstage, h], by simp⟩

/-- The empty needle is a substring of every haystack. -/
theorem containsSubList_nil (l : List Char) : containsSubList l [] = true := by
  cases l <;> simp [containsSubList, startsWithList]

/-- The secondary classifier yields no suggestion when the fallback toggle is
off or the SDK is unavailable. -/
theorem llmSuggest_none_of (env : LLMEnv) (config : Config)
    (h : config.routing_rules.enable_llm_fallback = false ∨ env.anthropicAvailable = false) :
    llmSuggest env config = none := by
  rcases h with h | h <;> simp [llmSuggest, h]

/-- A suggestion returned by the secondary classifier is one of the four
fixed tokens. -/
theorem llmSuggest_four (env : LLMEnv) (config : Config) (s : String)
    (h : llmSuggest env config = some s) :
    (s == "direct" || s == "doc" || s == "db" || s == "web") = true := by
  unfold llmSuggest at h
  split at h
  · exact Option.noConfusion h
  · split at h
    · exact Option.noConfusion h
    · split at h
      · next heq =>
        split at h
        · next hg =>
          injection h with h
          subst h
          exact (Bool.and_eq_true_iff.mp hg).2
        · exact Option.noConfusion h
      · exact Option.noConfusion h

/-- With no harmful-pattern hit, `decide_tool` never answers `'fallback'`. -/
theorem decide_tool_not_fallback (env : LLMEnv) (q : String) (config : Config)
    (h1 : q ≠ "") (h2 : pyStrip q ≠ "")
    (hh : containsHarmfulPattern (pyLower q) config.routing_rules.harmful_patterns = false) :
    decide_tool env (.str q) config ≠ .ok "fallback" := by
  intro he
  by_cases hd : (matchesKeywords (pyLower q) config.routing_rules.document_keywords &&
      config.is_tool_enabled "document_retriever") = true
  · obtain ⟨hd1, hd2⟩ := Bool.and_eq_true_iff.mp hd
    rw [decide_tool_doc env q config h1 h2 hh hd1 hd2] at he
    simp at he
  · have hd' : (matchesKeywords (pyLower q) config.routing_rules.document_keywords &&
        config.is_tool_enabled "document_retriever") = false := by simpa using hd
    by_cases hb : (matchesKeywords (pyLower q) config.routing_rules.database_keywords &&
        config.is_tool_enabled "database_query") = true
    · obtain ⟨hb1, hb2⟩ := Bool.and_eq_true_iff.mp hb
      rw [decide_tool_db env q config h1 h2 hh hd' hb1 hb2] at he
      simp at he
    · have hb' : (matchesKeywords (pyLower q) config.routing_rules.database_keywords &&
          config.is_tool_enabled "database_query") = false := by simpa using hb
      by_cases hw : (matchesKeywords (pyLower q) config.routing_rules.web_keywords &&
          config.is_tool_enabled "web_search") = true
      · obtain ⟨hw1, hw2⟩ := Bool.and_eq_true_iff.mp hw
        rw [decide_tool_web env q config h1 h2 hh hd' hb' hw1 hw2] at he
        simp at he
      · have hw' : (matchesKeywords (pyLower q) config.routing_rules.web_keywords &&
            config.is_tool_enabled "web_search") = false := by simpa using hw
        rw [decide_tool_llm_stage env q config h1 h2 hh hd' hb' hw'] at he
        rcases llmStage_cases env q config (keywordMatchList q config) with
          h | ⟨h, _⟩ | ⟨h, _⟩ | ⟨h, _⟩ <;> rw [h] at he <;> simp at he

/-- With the named tool disabled, `decide_tool` never answers with the
corresponding category (`cat` ranging over the three tool-backed ones). -/
theorem decide_tool_not_disabled (env : LLMEnv) (q : String) (config : Config)
    (cat tool : String)
    (hct : (cat, tool) = ("doc", "document_retriever") ∨
           (cat, tool) = ("db", "database_query") ∨
           (cat, tool) = ("web", "web_search"))
    (h1 : q ≠ "") (h2 : pyStrip q ≠ "")
    (hdis : config.is_tool_enabled tool = false) :
    decide_tool env (.str q) config ≠ .ok cat := by
  intro he
  by_cases hh : containsHarmfulPattern (pyLower q) config.routing_rules.harmful_patterns = true
  · rw [decide_tool_harmful env q config h1 h2 hh] at he
    rcases hct with h | h | h <;> rw [Prod.mk.injEq] at h <;> obtain ⟨hc, -⟩ := h <;>
      subst hc <;> simp at he
  · have hh' : containsHarmfulPattern (pyLower q) config.routing_rules.harmful_patterns
        = false := by simpa using hh
    by_cases hd : (matchesKeywords (pyLower q) config.routing_rules.document_keywords &&
        config.is_tool_enabled "document_retriever") = true
    · obtain ⟨hd1, hd2⟩ := Bool.and_eq_true_iff.mp hd
      rw [decide_tool_doc env q config h1 h2 hh' hd1 hd2] at he
      rcases hct with h | h | h <;> rw [Prod.mk.injEq] at h <;> obtain ⟨hc, ht⟩ := h <;>
        subst hc <;> subst ht <;> simp_all
    · have hd' : (matchesKeywords (pyLower q) config.routing_rules.document_keywords &&
          config.is_tool_enabled "document_retriever") = false := by simpa using hd
      by_cases hb : (matchesKeywords (pyLower q) config.routing_rules.database_keywords &&
          config.is_tool_enabled "database_query") = true
      · obtain ⟨hb1, hb2⟩ := Bool.and_eq_true_iff.mp hb
        rw [decide_tool_db env q config h1 h2 hh' hd' hb1 hb2] at he
        rcases hct with h | h | h <;> rw [Prod.mk.injEq] at h <;> obtain ⟨hc, ht⟩ := h <;>
          subst hc <;> subst ht <;> simp_all
      · have hb' : (matchesKeywords (pyLower q) config.routing_rules.database_keywords &&
            config.is_tool_enabled "database_query") = false := by simpa using hb
        by_cases hw : (matchesKeywords (pyLower q) config.routing_rules.web_keywords &&
            config.is_tool_enabled "web_search") = true
        · obtain ⟨hw1, hw2⟩ := Bool.and_eq_true_iff.mp hw
          rw [decide_tool_web env q config h1 h2 hh' hd' hb' hw1 hw2] at he
          rcases hct with h | h | h <;> rw [Prod.mk.injEq] at h <;> obtain ⟨hc, ht⟩ := h <;>
            subst hc <;> subst ht <;> simp_all
        · have hw' : (matchesKeywords (pyLower q) config.routing_rules.web_keywords &&
              config.is_tool_enabled "web_search") = false := by simpa using hw
          rw [decide_tool_llm_stage env q config h1 h2 hh' hd' hb' hw'] at he
          rcases llmStage_cases env q config (keywordMatchList q config) with
            h | ⟨h, hen⟩ | ⟨h, hen⟩ | ⟨h, hen⟩ <;> rw [h] at he <;>
            rcases hct with hc | hc | hc <;> rw [Prod.mk.injEq] at hc <;>
            obtain ⟨hc1, hc2⟩ := hc <;> subst hc1 <;> subst hc2 <;> simp_all

/-- The API call returns nothing when the request raises. -/
theorem callLlm_none_fail (env : LLMEnv) (hf : env.apiOutcome = .failure) :
    callLlmForRouting env = none := by
  unfold callLlmForRouting
  cases hb : env.anthropicAvailable <;> cases hk : env.apiKey <;> simp [hf]

/-- The API call returns nothing when the response has no content blocks. -/
theorem callLlm_none_empty (env : LLMEnv) (hf : env.apiOutcome = .success []) :
    callLlmForRouting env = none := by
  unfold callLlmForRouting
  cases hb : env.anthropicAvailable <;> cases hk : env.apiKey <;> simp [hf]

/-- No API result means no suggestion. -/
theorem llmSuggest_none_of_call (env : LLMEnv) (config : Config)
    (h : callLlmForRouting env = none) :
    llmSuggest env config = none := by
  simp [llmSuggest, h]

/-! ## Claims -/

/-- C1: for every non-empty, non-whitespace query, every configuration and
every collaborator behaviour, `decide_tool` returns exactly one of the five
category strings `direct`, `doc`, `db`, `web`, `fallback`. -/
theorem C1_decide_tool_closed_category (env : LLMEnv) (q : String) (config : Config)
    (h1 : q ≠ "") (h2 : pyStrip q ≠ "") :
    ∃ r, decide_tool env (.str q) config = .ok r ∧
      (r = "direct" ∨ r = "doc" ∨ r = "db" ∨ r = "web" ∨ r = "fallback") :=
  decide_tool_total env q config h1 h2

/-- Witness for C1 at a concrete query and configuration. -/
theorem C1_decide_tool_closed_category_witness :
    ∃ r, decide_tool envNone (.str "hello world") cfgAll = .ok r ∧
      (r = "direct" ∨ r = "doc" ∨ r = "db" ∨ r = "web" ∨ r = "fallback") :=
  C1_decide_tool_closed_category envNone "hello world" cfgAll (by decide) (by decide)

/-- C2 counterexample: `delete` is a configured harmful pattern and occurs in
the query `delete<TAB>all records now` as a separate token bounded by
whitespace (a tab on its right), yet `decide_tool` returns `direct`, not
`fallback`: the single-space padding check does not recognise a tab
boundary. -/
theorem C2_counterexample_tab_boundary :
    "delete" ∈ cfgAll.routing_rules.harmful_patterns ∧
    specTokenBounded (pyLower "delete\tall records now") "delete" ∧
    decide_tool envNone (.str "delete\tall records now") cfgAll = .ok "direct" := by
  refine ⟨by decide,
    ⟨[], '\t' :: "all records now".data, by decide, Or.inl rfl,
      Or.inr ⟨'\t', rfl, by decide⟩⟩, ?_⟩
  rfl

/-- C2 (amended): `decide_tool` returns `fallback` exactly when some
configured harmful pattern, case-folded and padded with one space on each
side, occurs as a substring of the space-padded case-folded query — i.e.
when the pattern occurs bounded by a single space character or the ends of
the query.  In particular a pattern occurring only inside a larger token
never triggers the fallback, and a match pre-empts keywords and
tool-enablement. -/
theorem C2_amended_space_bounded_fallback (env : LLMEnv) (q : String) (config : Config)
    (h1 : q ≠ "") (h2 : pyStrip q ≠ "") :
    decide_tool env (.str q) config = .ok "fallback" ↔
      containsHarmfulPattern (pyLower q) config.routing_rules.harmful_patterns = true := by
  constructor
  · intro he
    by_cases hh : containsHarmfulPattern (pyLower q) config.routing_rules.harmful_patterns = true
    · exact hh
    · exact absurd he (decide_tool_not_fallback env q config h1 h2 (by simpa using hh))
  · exact decide_tool_harmful env q config h1 h2

/-- Witness for the amended C2. -/
theorem C2_amended_witness :
    decide_tool envNone (.str "DELETE all records") cfgAll = .ok "fallback" :=
  (C2_amended_space_bounded_fallback envNone "DELETE all records" cfgAll
    (by decide) (by decide)).mpr (by decide)

/-- C3: whatever the collaborator answers, `decide_tool` never returns `doc`,
`db` or `web` when the corresponding backing tool is disabled or absent from
the registry — neither through the keyword path nor through a secondary
classifier suggestion. -/
theorem C3_disabled_tool_never_returned (env : LLMEnv) (q : String) (config : Config)
    (h1 : q ≠ "") (h2 : pyStrip q ≠ "") :
    (config.is_tool_enabled "document_retriever" = false →
      decide_tool env (.str q) config ≠ .ok "doc") ∧
    (config.is_tool_enabled "database_query" = false →
      decide_tool env (.str q) config ≠ .ok "db") ∧
    (config.is_tool_enabled "web_search" = false →
      decide_tool env (.str q) config ≠ .ok "web") :=
  ⟨fun hd => decide_tool_not_disabled env q config "doc" "document_retriever"
      (Or.inl rfl) h1 h2 hd,
   fun hd => decide_tool_not_disabled env q config "db" "database_query"
      (Or.inr (Or.inl rfl)) h1 h2 hd,
   fun hd => decide_tool_not_disabled env q config "web" "web_search"
      (Or.inr (Or.inr rfl)) h1 h2 hd⟩

/-- Witness for C3: a document-keyword query with `document_retriever`
disabled is not routed to `doc`. -/
theorem C3_witness :
    decide_tool envDoc (.str "according to the document plan") cfgDocOff ≠ .ok "doc" :=
  (C3_disabled_tool_never_returned envDoc "according to the document plan" cfgDocOff
    (by decide) (by decide)).1 (by decide)

/-- C4: `decide_tool` signals an error exactly on a non-string query or an
empty / all-whitespace string query; on every other string query it
returns a value and never raises. -/
theorem C4_error_iff_invalid_input (env : LLMEnv) (query : PyInput) (config : Config) :
    (∃ e, decide_tool env query config = .error e) ↔
      (query = .notStr ∨ ∃ s, query = .str s ∧ (s = "" ∨ pyStrip s = "")) := by
  cases query with
  | notStr =>
    exact ⟨fun _ => Or.inl rfl, fun _ => ⟨.typeError, rfl⟩⟩
  | str s =>
    by_cases h2 : pyStrip s = ""
    · have hb : (s == "" || pyStrip s == "") = true := by simp [h2]
      exact ⟨fun _ => Or.inr ⟨s, rfl, Or.inr h2⟩,
             fun _ => ⟨.valueError, by simp [decide_tool, hb]⟩⟩
    · have h1 : s ≠ "" := fun h => h2 (by rw [h]; rfl)
      constructor
      · rintro ⟨e, he⟩
        obtain ⟨r, hr, -⟩ := decide_tool_total env s config h1 h2
        rw [hr] at he
        exact Except.noConfusion he
      · rintro (h | ⟨t, ht, hbad⟩)
        · exact PyInput.noConfusion h
        · injection ht with ht
          subst ht
          rcases hbad with h | h
          · exact absurd h h1
          · exact absurd h h2

/-- C5: the implementation's ambiguity detector agrees with the spec's five
ordered rules on every query and every keyword-match set. -/
theorem C5_ambiguity_refines_spec (query : String) (ms : List String) :
    is_ambiguous_query query ms = spec_is_ambiguous query ms := by
  rcases ms with _ | ⟨a, _ | ⟨b, t⟩⟩
  · simp [is_ambiguous_query, spec_is_ambiguous, Bool.and_comm]
  · simp [is_ambiguous_query, spec_is_ambiguous]
  · have hgt : (a :: b :: t).length > 1 := by simp
    simp [is_ambiguous_query, spec_is_ambiguous, hgt]

/-- C6: with no harmful-pattern hit, a query matching exactly one category's
keywords whose tool is enabled is routed to that category, for every
collaborator behaviour (so the secondary classifier cannot influence the
result). -/
theorem C6_single_category_confidence (env : LLMEnv) (q : String) (config : Config)
    (h1 : q ≠ "") (h2 : pyStrip q ≠ "")
    (hh : containsHarmfulPattern (pyLower q) config.routing_rules.harmful_patterns = false) :
    (matchesKeywords (pyLower q) config.routing_rules.document_keywords = true →
     matchesKeywords (pyLower q) config.routing_rules.database_keywords = false →
     matchesKeywords (pyLower q) config.routing_rules.web_keywords = false →
     config.is_tool_enabled "document_retriever" = true →
     decide_tool env (.str q) config = .ok "doc") ∧
    (matchesKeywords (pyLower q) config.routing_rules.document_keywords = false →
     matchesKeywords (pyLower q) config.routing_rules.database_keywords = true →
     matchesKeywords (pyLower q) config.routing_rules.web_keywords = false →
     config.is_tool_enabled "database_query" = true →
     decide_tool env (.str q) config = .ok "db") ∧
    (matchesKeywords (pyLower q) config.routing_rules.document_keywords = false →
     matchesKeywords (pyLower q) config.routing_rules.database_keywords = false →
     matchesKeywords (pyLower q) config.routing_rules.web_keywords = true →
     config.is_tool_enabled "web_search" = true →
     decide_tool env (.str q) config = .ok "web") :=
  ⟨fun hm _ _ he => decide_tool_doc env q config h1 h2 hh hm he,
   fun hd hm _ he => decide_tool_db env q config h1 h2 hh (by simp [hd]) hm he,
   fun hd hb hm he => decide_tool_web env q config h1 h2 hh (by simp [hd]) (by simp [hb]) hm he⟩

/-- Witness for C6 on the spec's document scenario. -/
theorem C6_witness :
    decide_tool envNone (.str "According to the Q3 Project Plan") cfgAll = .ok "doc" :=
  (C6_single_category_confidence envNone "According to the Q3 Project Plan" cfgAll
    (by decide) (by decide) (by decide)).1 (by decide) (by decide) (by decide) (by decide)

/-- C7 counterexample: `document account info` matches both the document and
the database keywords, all tools are enabled and the secondary classifier is
disabled, yet `decide_tool` returns `doc` — not `direct` as the claim
demands: the first enabled keyword hit returns before any ambiguity
handling. -/
theorem C7_counterexample_first_enabled_wins :
    matchesKeywords (pyLower "document account info")
      cfgAll.routing_rules.document_keywords = true ∧
    matchesKeywords (pyLower "document account info")
      cfgAll.routing_rules.database_keywords = true ∧
    cfgAll.routing_rules.enable_llm_fallback = false ∧
    decide_tool envNone (.str "document account info") cfgAll = .ok "doc" :=
  ⟨by decide, by decide, rfl, rfl⟩

/-- C7 (amended): when the query matches the keywords of two or more
categories and every matched category's tool is disabled (so no keyword
check returns early), the query is classified as ambiguous, the secondary
classifier's accepted suggestion decides the result, and with the secondary
classifier disabled or unavailable the result is `direct`. -/
theorem C7_amended_ambiguity_escalation (env : LLMEnv) (q : String) (config : Config)
    (h1 : q ≠ "") (h2 : pyStrip q ≠ "")
    (hh : containsHarmfulPattern (pyLower q) config.routing_rules.harmful_patterns = false)
    (hde : matchesKeywords (pyLower q) config.routing_rules.document_keywords = true →
      config.is_tool_enabled "document_retriever" = false)
    (hbe : matchesKeywords (pyLower q) config.routing_rules.database_keywords = true →
      config.is_tool_enabled "database_query" = false)
    (hwe : matchesKeywords (pyLower q) config.routing_rules.web_keywords = true →
      config.is_tool_enabled "web_search" = false)
    (hcount : 2 ≤ (keywordMatchList q config).length) :
    is_ambiguous_query q (keywordMatchList q config) = true ∧
    ((config.routing_rules.enable_llm_fallback = false ∨ env.anthropicAvailable = false) →
      decide_tool env (.str q) config = .ok "direct") ∧
    (∀ s, llmSuggest env config = some s → toolEnabledFor config s = true →
      decide_tool env (.str q) config = .ok s) := by
  have hgt : (keywordMatchList q config).length > 1 := hcount
  have hamb : is_ambiguous_query q (keywordMatchList q config) = true := by
    simp [is_ambiguous_query, hgt]
  have hd' : (matchesKeywords (pyLower q) config.routing_rules.document_keywords &&
      config.is_tool_enabled "document_retriever") = false := by
    cases hm : matchesKeywords (pyLower q) config.routing_rules.document_keywords
    · simp
    · simp [hde hm]
  have hb' : (matchesKeywords (pyLower q) config.routing_rules.database_keywords &&
      config.is_tool_enabled "database_query") = false := by
    cases hm : matchesKeywords (pyLower q) config.routing_rules.database_keywords
    · simp
    · simp [hbe hm]
  have hw' : (matchesKeywords (pyLower q) config.routing_rules.web_keywords &&
      config.is_tool_enabled "web_search") = false := by
    cases hm : matchesKeywords (pyLower q) config.routing_rules.web_keywords
    · simp
    · simp [hwe hm]
  have hstage := decide_tool_llm_stage env q config h1 h2 hh hd' hb' hw'
  refine ⟨hamb, ?_, ?_⟩
  · intro hOff
    rw [hstage, llmStage]
    simp [hamb, llmSuggest_none_of env config hOff]
  · intro s hs hen
    rw [hstage, llmStage]
    simp [hamb, hs, llmSuggest_four env config s hs, hen]

/-- Witness for the amended C7: both matched tools disabled, SDK absent,
result `direct`. -/
theorem C7_amended_witness :
    decide_tool envNone (.str "document account info") cfgNoTools = .ok "direct" :=
  (C7_amended_ambiguity_escalation envNone "document account info" cfgNoTools
    (by decide) (by decide) (by decide) (fun _ => by decide) (fun _ => by decide)
    (fun _ => by decide) (by decide)).2.1 (Or.inr (by decide))

/-- C8 counterexample: with every tool disabled the prompt offers only the
token `direct`, yet a collaborator response `doc` — not an offered token —
is accepted and returned by `llm_route_query` instead of being discarded:
validation is against the fixed four-token list, not the offered one. -/
theorem C8_counterexample_disabled_token_accepted :
    available_tools cfgNoTools = ["direct"] ∧
    llm_route_query envDoc "what does the report say" cfgNoTools = .ok (some "doc") :=
  ⟨rfl, rfl⟩

/-- C8 (amended): the secondary classifier normalizes the collaborator's
first content text (trim, then case-fold) and accepts it exactly when it is
one of the four fixed tokens `direct`, `doc`, `db`, `web`, regardless of
which tools are enabled; anything else yields no suggestion.  (Filtering of
suggestions whose tool is disabled happens later, inside `decide_tool`.) -/
theorem C8_amended_fixed_token_validation (env : LLMEnv) (q : String) (config : Config)
    (k resp : String) (rest : List String)
    (h1 : q ≠ "") (h2 : pyStrip q ≠ "")
    (hf : config.routing_rules.enable_llm_fallback = true)
    (ha : env.anthropicAvailable = true)
    (hk : env.apiKey = some k)
    (hr : env.apiOutcome = .success (resp :: rest)) :
    llm_route_query env q config =
      .ok (if pyLower (pyStrip resp) == "direct" || pyLower (pyStrip resp) == "doc" ||
            pyLower (pyStrip resp) == "db" || pyLower (pyStrip resp) == "web"
          then some (pyLower (pyStrip resp)) else none) := by
  rw [llm_route_query_valid env q config h1 h2]
  have hc : callLlmForRouting env = some (pyLower (pyStrip resp)) := by
    simp [callLlmForRouting, ha, hk, hr]
  by_cases h4 : (pyLower (pyStrip resp) == "direct" || pyLower (pyStrip resp) == "doc" ||
      pyLower (pyStrip resp) == "db" || pyLower (pyStrip resp) == "web") = true
  · rcases (by simpa using h4 :
        ((pyLower (pyStrip resp) = "direct" ∨ pyLower (pyStrip resp) = "doc") ∨
          pyLower (pyStrip resp) = "db") ∨ pyLower (pyStrip resp) = "web") with
      ((h | h) | h) | h <;> simp [llmSuggest, hf, ha, hc, h]
  · have h4' : (pyLower (pyStrip resp) == "direct" || pyLower (pyStrip resp) == "doc" ||
        pyLower (pyStrip resp) == "db" || pyLower (pyStrip resp) == "web") = false := by
      simpa using h4
    simp [llmSuggest, hf, ha, hc, h4']

/-- Witness for the amended C8: response text `doc` is accepted. -/
theorem C8_amended_witness :
    llm_route_query envDoc "hello there" cfgNoTools = .ok (some "doc") := by
  rw [C8_amended_fixed_token_validation envDoc "hello there" cfgNoTools "key" "doc" []
    (by decide) (by decide) rfl rfl rfl rfl]
  rfl

/-- C9: every collaborator failure — a raised exception (timeout, transport
or API error), an empty response, or an off-list suggestion — is absorbed
by the secondary classifier into a `none` suggestion, and neither
`llm_route_query` nor `decide_tool` ever surfaces such a failure as an
exception. -/
theorem C9_collaborator_failures_absorbed (env : LLMEnv) (q : String) (config : Config)
    (h1 : q ≠ "") (h2 : pyStrip q ≠ "") :
    (∃ v, llm_route_query env q config = .ok v) ∧
    (env.apiOutcome = .failure → llm_route_query env q config = .ok none) ∧
    (env.apiOutcome = .success [] → llm_route_query env q config = .ok none) ∧
    (∀ resp rest, env.apiOutcome = .success (resp :: rest) →
      (pyLower (pyStrip resp) == "direct" || pyLower (pyStrip resp) == "doc" ||
       pyLower (pyStrip resp) == "db" || pyLower (pyStrip resp) == "web") = false →
      llm_route_query env q config = .ok none) ∧
    (∃ r, decide_tool env (.str q) config = .ok r) := by
  have hv := llm_route_query_valid env q config h1 h2
  refine ⟨⟨llmSuggest env config, hv⟩, ?_, ?_, ?_, ?_⟩
  · intro hf
    rw [hv, llmSuggest_none_of_call env config (callLlm_none_fail env hf)]
  · intro hf
    rw [hv, llmSuggest_none_of_call env config (callLlm_none_empty env hf)]
  · intro resp rest hr h4'
    rw [hv]
    have hc : callLlmForRouting env = none ∨
        callLlmForRouting env = some (pyLower (pyStrip resp)) := by
      unfold callLlmForRouting
      cases hb : env.anthropicAvailable
      · exact Or.inl (by simp)
      · cases hk : env.apiKey
        · exact Or.inl (by simp)
        · exact Or.inr (by simp [hr])
    rcases hc with hc | hc
    · rw [llmSuggest_none_of_call env config hc]
    · simp [llmSuggest, hc, h4']
  · obtain ⟨r, hrr, -⟩ := decide_tool_total env q config h1 h2
    exact ⟨r, hrr⟩

/-- Witness for C9: a raised API call yields no suggestion. -/
theorem C9_witness :
    llm_route_query envFail "hello world" cfgAll = .ok none :=
  (C9_collaborator_failures_absorbed envFail "hello world" cfgAll
    (by decide) (by decide)).2.1 rfl

/-- C10: keyword matching has no emptiness guard, so an empty string in the
document keyword list matches every query: with no harmful-pattern hit and
`document_retriever` enabled, `decide_tool` returns `doc` whatever the
query says. -/
theorem C10_empty_keyword_matches_all (env : LLMEnv) (q : String) (config : Config)
    (h1 : q ≠ "") (h2 : pyStrip q ≠ "")
    (hh : containsHarmfulPattern (pyLower q) config.routing_rules.harmful_patterns = false)
    (hk : "" ∈ config.routing_rules.document_keywords)
    (he : config.is_tool_enabled "document_retriever" = true) :
    decide_tool env (.str q) config = .ok "doc" := by
  have hm : matchesKeywords (pyLower q) config.routing_rules.document_keywords = true := by
    apply List.any_eq_true.mpr
    exact ⟨"", hk, containsSubList_nil _⟩
  exact decide_tool_doc env q config h1 h2 hh hm he

/-- Witness for C10: a query with no meaningful content is still routed to
`doc` when the empty keyword is configured. -/
theorem C10_witness :
    decide_tool envNone (.str "zzz") cfgEmptyKw = .ok "doc" :=
  C10_empty_keyword_matches_all envNone "zzz" cfgEmptyKw (by decide) (by decide)
    (by decide) (by decide) (by decide)

end Supervisor
